import Mathlib

/-!
# Movie recommendation page script (templates/script.js)

A shallow embedding of the page script: the script variables, the parts of the
DOM the script reads and writes, and the browser environment it relies on
(timer table, clock, in-flight requests) are one explicit state, `Page`; every
listener and callback of the script is a function on that state, and a page
event is one `step`.
-/

namespace MovieRec

/-! ## Strings -/

/-- A JavaScript string: its sequence of UTF-16 code units. -/
abbrev JSString := List Nat

/-- The UTF-16 code units of one character (a surrogate pair above the BMP). -/
def charUnits (c : Char) : List Nat :=
  if c.toNat < 65536 then [c.toNat]
  else [55296 + (c.toNat - 65536) / 1024, 56320 + (c.toNat - 65536) % 1024]

/-- The JavaScript string written by a source literal. -/
def utf16 (s : String) : JSString :=
  s.toList.foldr (fun c acc => charUnits c ++ acc) []

/-- Whether `search` occurs in `s` at position 0 (`String.prototype.startsWith`). -/
def startsWith : JSString → JSString → Bool
  | _, [] => true
  | [], _ :: _ => false
  | c :: s, d :: search => c == d && startsWith s search

/-- The substring test `s.includes(search)` of `String.prototype.includes`:
`search` occurs in `s` at some position. -/
def includes : JSString → JSString → Bool
  | [], search => startsWith [] search
  | c :: s, search => startsWith (c :: s) search || includes s search

/-- Lowercasing restricted to the ASCII letters; `String.prototype.toLowerCase`
agrees with it on ASCII strings. The page functions take the lowercasing
function as a parameter; this one instantiates it on concrete inputs. -/
def asciiLower (s : JSString) : JSString :=
  s.map (fun c => if 65 ≤ c ∧ c ≤ 90 then c + 32 else c)

/-! ## Data model -/

/-- The values the script gives to `style.display`; `unset` is an element whose
inline style the script has not written yet (the stylesheet decides). -/
inductive Display where
  | unset
  | none
  | block
  deriving DecidableEq, Repr

/-- A pending `setTimeout` of the debounce callback: its handle, the clock value
at which it is due, and the `value` its closure captured. -/
structure Timer where
  id : Nat
  due : Nat
  value : JSString
  deriving DecidableEq, Repr

/-- A child of `autocompleteList`: its text, and the movie its click listener
commits (`none` for the static "Loading..." and "No movies found" rows). -/
structure AutocompleteItem where
  textContent : JSString
  click : Option JSString
  deriving DecidableEq, Repr

/-- A recommendation record of the `/recommend` response. -/
structure Movie where
  title : JSString
  poster : JSString
  rating : JSString
  release : JSString
  tagline : JSString
  deriving DecidableEq, Repr

/-- A child of `moviesGrid`: the class name and the string assigned to its
`innerHTML`. -/
structure MovieCard where
  className : JSString
  innerHTML : JSString
  deriving DecidableEq, Repr

/-- A network request issued by the script: `GET /movies`, or `POST /recommend`
with the JSON body whose `movie` field is the given title. -/
inductive Request where
  | getMovies
  | postRecommend (movie : JSString)
  deriving DecidableEq, Repr

/-- How `fetch("/movies")` settles. -/
inductive MoviesResponse where
  | networkError
  | notOk
  | ok (movies : List JSString)
  deriving DecidableEq, Repr

/-- How `fetch("/recommend")` settles; `recommendations` is `none` when the
response object has no such field. -/
inductive RecommendResponse where
  | networkError
  | notOk
  | ok (recommendations : Option (List Movie))
  deriving DecidableEq, Repr

/-- The state of the page. -/
structure Page where
  /-- Script variable `moviesList`. -/
  moviesList : List JSString
  /-- Script variable `currentTimeout` (`none` is `null`). -/
  currentTimeout : Option Nat
  /-- Value of `movieSearch.value`. -/
  movieSearchValue : JSString
  /-- Children of `autocompleteList`. -/
  autocompleteItems : List AutocompleteItem
  /-- Value of `autocompleteList.style.display`. -/
  autocompleteDisplay : Display
  /-- Value of `selectedMovie.textContent`. -/
  selectedMovieText : JSString
  /-- Value of `recommendBtn.disabled`. -/
  recommendBtnDisabled : Bool
  /-- Value of `loader.style.display`. -/
  loaderDisplay : Display
  /-- Value of `recommendationsSection.style.display`. -/
  recommendationsDisplay : Display
  /-- Children of `moviesGrid`. -/
  moviesGrid : List MovieCard
  /-- Value of `errorMessage.textContent`. -/
  errorText : JSString
  /-- Value of `errorMessage.style.display`. -/
  errorDisplay : Display
  /-- Clock of the browser, in milliseconds. -/
  now : Nat
  /-- Timer table of the browser, in creation order. -/
  timers : List Timer
  /-- Handle the next `setTimeout` returns (handles are positive). -/
  nextTimerId : Nat
  /-- Whether `fetch("/movies")` has not settled yet. -/
  moviesFetchPending : Bool
  /-- Number of `fetch("/recommend")` calls that have not settled yet. -/
  recommendPending : Nat
  /-- Every request issued so far, in order. -/
  sent : List Request
  /-- Instrumentation: the `value` of every run of the debounce callback. -/
  filterRuns : List JSString
  deriving DecidableEq, Repr

/-- The parts of the page markup the script reads before writing them; the
markup is not part of the script. -/
structure Markup where
  selectedMovieText : JSString
  errorText : JSString
  moviesGrid : List MovieCard
  deriving DecidableEq, Repr

/-- The page when the `DOMContentLoaded` listener returns: both variables at
their initial values, no inline style written, `fetch("/movies")` issued. -/
def initialPage (m : Markup) : Page :=
  { moviesList := []
    currentTimeout := Option.none
    movieSearchValue := []
    autocompleteItems := []
    autocompleteDisplay := Display.unset
    selectedMovieText := m.selectedMovieText
    recommendBtnDisabled := false
    loaderDisplay := Display.unset
    recommendationsDisplay := Display.unset
    moviesGrid := m.moviesGrid
    errorText := m.errorText
    errorDisplay := Display.unset
    now := 0
    timers := []
    nextTimerId := 1
    moviesFetchPending := true
    recommendPending := 0
    sent := [Request.getMovies]
    filterRuns := [] }

/-- An element is shown by the script when its inline display is `block`; the
three panels are hidden until then. -/
def Display.visible (d : Display) : Bool :=
  d == Display.block

/-! ## Functions of the script -/

/-- The function `showError`. -/
def showError (p : Page) (message : JSString) : Page :=
  { p with errorText := message, errorDisplay := Display.block }

/-- The `ratingDisplay` string of a card. -/
def ratingDisplay (movie : Movie) : JSString :=
  if movie.rating ≠ utf16 "N/A" then
    utf16 "<span class=\"rating-badge\">\u201a\u2260\u00ea " ++ movie.rating ++ utf16 "</span>"
  else
    utf16 "\u201a\u2260\u00ea N/A"

/-- The template string assigned to `movieCard.innerHTML`. -/
def cardHTML (movie : Movie) : JSString :=
  utf16 "\n                        <img class=\"movie-poster\" src=\"" ++ movie.poster
    ++ utf16 "\" alt=\"" ++ movie.title
    ++ utf16 "\" onerror=\"this.src=\x27https://via.placeholder.com/300x450/2c5364/ffffff?text=No+Image\x27\">\n                        <p class=\"movie-title\">"
    ++ movie.title
    ++ utf16 "</p>\n                        <p class=\"movie-meta\">" ++ ratingDisplay movie
    ++ utf16 " | \uf8ff\u00fc\u00ec\u00d6 " ++ movie.release
    ++ utf16 "</p>\n                        <p class=\"movie-tagline\">\"" ++ movie.tagline
    ++ utf16 "\"</p>\n                    "

/-- The card built for one record in `displayRecommendations`. -/
def movieCard (movie : Movie) : MovieCard :=
  { className := utf16 "movie-card", innerHTML := cardHTML movie }

/-- The function `displayRecommendations`. -/
def displayRecommendations (p : Page) (recommendations : List Movie) : Page :=
  let p1 := { p with moviesGrid := [] }
  let p2 := recommendations.foldl
    (fun q movie => { q with moviesGrid := q.moviesGrid ++ [movieCard movie] }) p1
  { p2 with recommendationsDisplay := Display.block }

/-- The callbacks of `fetch("/movies")`. -/
def onMoviesSettled (p : Page) : MoviesResponse → Page
  | MoviesResponse.ok movies => { p with moviesList := movies }
  | MoviesResponse.notOk => showError p (utf16 "Failed to load movie database. Please refresh the page.")
  | MoviesResponse.networkError =>
      showError p (utf16 "Failed to load movie database. Please refresh the page.")

/-- The expression `moviesList.filter(...).slice(0, 10)` of the debounce
callback. -/
def filteredMovies (lower : JSString → JSString) (moviesList : List JSString)
    (value : JSString) : List JSString :=
  (moviesList.filter (fun movie => includes (lower movie) value)).take 10

/-- A row written through `innerHTML`: text only, no listener. -/
def staticItem (text : JSString) : AutocompleteItem :=
  { textContent := text, click := Option.none }

/-- A row built for one filtered movie, with its click listener. -/
def suggestionItem (movie : JSString) : AutocompleteItem :=
  { textContent := movie, click := some movie }

/-- The debounce callback passed to `setTimeout`, with its captured `value`. -/
def onDebounce (lower : JSString → JSString) (p : Page) (value : JSString) : Page :=
  let filtered := filteredMovies lower p.moviesList value
  let p1 := { p with autocompleteItems := [], filterRuns := p.filterRuns ++ [value] }
  if filtered.length = 0 then
    { p1 with autocompleteItems := [staticItem (utf16 "No movies found")] }
  else
    filtered.foldl
      (fun q movie => { q with autocompleteItems := q.autocompleteItems ++ [suggestionItem movie] })
      p1

/-- The browser function `clearTimeout`: drops the timer with that handle, if
it is still pending. -/
def clearTimeout (p : Page) (id : Nat) : Page :=
  { p with timers := p.timers.filter (fun t => t.id != id) }

/-- The browser function `setTimeout` for the debounce callback: a fresh
positive handle, due `delay` milliseconds from now. -/
def setTimeout (p : Page) (value : JSString) (delay : Nat) : Page × Nat :=
  ({ p with
      timers := p.timers ++ [{ id := p.nextTimerId, due := p.now + delay, value := value }]
      nextTimerId := p.nextTimerId + 1 },
   p.nextTimerId)

/-- The `input` listener of `movieSearch`. -/
def onInput (lower : JSString → JSString) (p : Page) : Page :=
  let value := lower p.movieSearchValue
  let p1 :=
    match p.currentTimeout with
    | some id => if id ≠ 0 then clearTimeout p id else p
    | Option.none => p
  if value = [] then
    { p1 with
        autocompleteItems := []
        autocompleteDisplay := Display.none
        selectedMovieText := utf16 "Select a movie to get started" }
  else
    let p2 :=
      { p1 with
          autocompleteItems := [staticItem (utf16 "Loading...")]
          autocompleteDisplay := Display.block }
    let r := setTimeout p2 value 300
    { r.1 with currentTimeout := some r.2 }

/-- The click listener of a suggestion row. -/
def onItemClick (p : Page) (movie : JSString) : Page :=
  { p with
      movieSearchValue := movie
      selectedMovieText := utf16 "Selected: " ++ movie
      autocompleteItems := []
      autocompleteDisplay := Display.none }

/-- The `click` listener of `document`, for a target outside the search field
and the suggestion list. -/
def onOutsideClick (p : Page) : Page :=
  { p with autocompleteDisplay := Display.none }

/-- The `change` listener of `movieSearch`. -/
def onChange (p : Page) : Page :=
  if p.movieSearchValue ≠ [] then
    { p with selectedMovieText := utf16 "Selected: " ++ p.movieSearchValue }
  else
    { p with selectedMovieText := utf16 "Select a movie to get started" }

/-- The `click` listener of `recommendBtn`, up to and including the call of
`fetch("/recommend")`. -/
def onRecommendClick (p : Page) : Page :=
  let movie := p.movieSearchValue
  if movie = [] then
    showError p (utf16 "Please select a movie first")
  else if ¬ p.moviesList.contains movie then
    showError p (utf16 "Movie not found in our database. Please try another one.")
  else
    { p with
        errorDisplay := Display.none
        recommendationsDisplay := Display.none
        loaderDisplay := Display.block
        recommendBtnDisabled := true
        sent := p.sent ++ [Request.postRecommend movie]
        recommendPending := p.recommendPending + 1 }

/-- The `then`, `catch` and `finally` callbacks of `fetch("/recommend")`. -/
def onRecommendSettled (p : Page) (r : RecommendResponse) : Page :=
  let p1 :=
    match r with
    | RecommendResponse.ok (some recommendations) =>
        if recommendations.length > 0 then displayRecommendations p recommendations
        else showError p (utf16 "No recommendations found. Please try another movie.")
    | RecommendResponse.ok Option.none =>
        showError p (utf16 "No recommendations found. Please try another movie.")
    | RecommendResponse.notOk =>
        showError p (utf16 "Error fetching recommendations. Please try again.")
    | RecommendResponse.networkError =>
        showError p (utf16 "Error fetching recommendations. Please try again.")
  { p1 with loaderDisplay := Display.none, recommendBtnDisabled := false }

/-! ## Page events -/

/-- Time passes: the clock advances by `ms` and every timer due by then runs
its callback. All timers have the same delay, so creation order is firing
order. -/
def runTimers (lower : JSString → JSString) (p : Page) (ms : Nat) : Page :=
  let deadline := p.now + ms
  let due := p.timers.filter (fun t => decide (t.due ≤ deadline))
  let p1 :=
    { p with
        timers := p.timers.filter (fun t => !decide (t.due ≤ deadline))
        now := deadline }
  due.foldl (fun q t => onDebounce lower q t.value) p1

/-- The events of the page. -/
inductive Event where
  /-- The request `fetch("/movies")` settles. -/
  | moviesSettled (r : MoviesResponse)
  /-- The user edits the search field; its value becomes `text`. -/
  | input (text : JSString)
  /-- An amount of time, in milliseconds, passes. -/
  | elapse (ms : Nat)
  /-- The user clicks the row at index `k` of the suggestion list. -/
  | clickItem (k : Nat)
  /-- The user clicks outside the search field and the suggestion list. -/
  | clickOutside
  /-- The search field fires `change`. -/
  | change
  /-- The user clicks the recommend button. -/
  | clickRecommend
  /-- A request `fetch("/recommend")` settles. -/
  | recommendSettled (r : RecommendResponse)
  deriving DecidableEq, Repr

/-- One page event. A request settles only while it is in flight; a row can be
clicked only while the list is displayed; a disabled button dispatches no
click. A click bubbles to the `document` listener: a click on the button is
outside the field and the list, and so is a click on a suggestion row, which
its own listener has detached from the list by then; a static row is still
inside the list. -/
def step (lower : JSString → JSString) (p : Page) : Event → Page
  | Event.moviesSettled r =>
      if p.moviesFetchPending then onMoviesSettled { p with moviesFetchPending := false } r
      else p
  | Event.input text => onInput lower { p with movieSearchValue := text }
  | Event.elapse ms => runTimers lower p ms
  | Event.clickItem k =>
      if p.autocompleteDisplay = Display.block then
        match p.autocompleteItems.get? k with
        | some item =>
            match item.click with
            | some movie => onOutsideClick (onItemClick p movie)
            | Option.none => p
        | Option.none => p
      else p
  | Event.clickOutside => onOutsideClick p
  | Event.change => onChange p
  | Event.clickRecommend =>
      if p.recommendBtnDisabled then p else onOutsideClick (onRecommendClick p)
  | Event.recommendSettled r =>
      if p.recommendPending = 0 then p
      else onRecommendSettled { p with recommendPending := p.recommendPending - 1 } r

/-- A sequence of page events, in order. -/
def run (lower : JSString → JSString) (p : Page) (events : List Event) : Page :=
  events.foldl (step lower) p

/-! ## Classes of events -/

/-- Events other than a click on the recommend button and the settling of a
recommendation request. -/
def Event.isPassive : Event → Bool
  | Event.clickRecommend => false
  | Event.recommendSettled _ => false
  | _ => true

/-- Events of the search field, the suggestion list and the clock: they reach
neither a network callback nor the recommend button. -/
def Event.isLocal : Event → Bool
  | Event.input _ => true
  | Event.elapse _ => true
  | Event.clickItem _ => true
  | Event.clickOutside => true
  | Event.change => true
  | _ => false

/-- Whether the event is the settling of the catalog request. -/
def Event.isCatalogLoad : Event → Bool
  | Event.moviesSettled _ => true
  | _ => false

/-- Whether the event reaches the timer table: an edit of the field or the
passing of time. -/
def Event.isTimed : Event → Bool
  | Event.input _ => true
  | Event.elapse _ => true
  | _ => false

/-- A burst of keystrokes: each keystroke of `keys` leaves the field at its
text and is followed by the next keystroke after its gap; the final keystroke
leaves the field at `final` and is followed by `rest` milliseconds. -/
def burst (keys : List (JSString × Nat)) (final : JSString) (rest : Nat) : List Event :=
  keys.foldr (fun k acc => Event.input k.1 :: Event.elapse k.2 :: acc)
    [Event.input final, Event.elapse rest]

/-- Whether the event is a click on the recommend button that validation
rejects in state `p`. -/
def rejects (p : Page) : Event → Bool
  | Event.clickRecommend =>
      !p.recommendBtnDisabled &&
        (p.movieSearchValue == [] || !p.moviesList.contains p.movieSearchValue)
  | _ => false

/-- Whether the event is a click on the recommend button that passes
validation in state `p`. -/
def accepts (p : Page) : Event → Bool
  | Event.clickRecommend =>
      !p.recommendBtnDisabled &&
        !(p.movieSearchValue == [] || !p.moviesList.contains p.movieSearchValue)
  | _ => false

/-- The stale-results mark after one event: set by a click rejected while the
results panel is displayed, cleared by a click that passes validation, kept by
every other event. -/
def staleMark (p : Page) (e : Event) (mark : Bool) : Bool :=
  if rejects p e && p.recommendationsDisplay == Display.block then true
  else if accepts p e then false
  else mark

/-- The stale-results mark at the end of the events, from `p` with `mark`. -/
def staleAfter (lower : JSString → JSString) : Page → Bool → List Event → Bool
  | _, mark, [] => mark
  | p, mark, e :: es => staleAfter lower (step lower p e) (staleMark p e mark) es

/-- Whether, along the events from `p`, a click was rejected while the results
panel was displayed and no click has passed validation since. -/
def staleRejection (lower : JSString → JSString) (p : Page) (es : List Event) : Bool :=
  staleAfter lower p false es

/-! ## Properties of states -/

/-- The string `b` occurs in `a` as a contiguous substring. -/
def Contains (a b : JSString) : Prop :=
  ∃ pre post, a = pre ++ b ++ post

/-- The rows the debounce callback leaves in the suggestion list. -/
def renderedItems (lower : JSString → JSString) (moviesList : List JSString)
    (value : JSString) : List AutocompleteItem :=
  if filteredMovies lower moviesList value = [] then [staticItem (utf16 "No movies found")]
  else (filteredMovies lower moviesList value).map suggestionItem

/-- At most one of the loading indicator, the error message and the results
panel is visible. -/
def MutuallyExclusive (p : Page) : Prop :=
  ¬ (p.loaderDisplay.visible = true ∧ p.errorDisplay.visible = true) ∧
  ¬ (p.loaderDisplay.visible = true ∧ p.recommendationsDisplay.visible = true) ∧
  ¬ (p.errorDisplay.visible = true ∧ p.recommendationsDisplay.visible = true)

instance (p : Page) : Decidable (MutuallyExclusive p) := by
  unfold MutuallyExclusive; infer_instance

/-- The debounce invariant: at most one timer is pending, and `currentTimeout`
holds its (positive) handle. -/
def TimerInv (p : Page) : Prop :=
  0 < p.nextTimerId ∧ p.timers.length ≤ 1 ∧
    ∀ t ∈ p.timers, p.currentTimeout = some t.id ∧ t.id ≠ 0

instance (p : Page) : Decidable (TimerInv p) := by
  unfold TimerInv; infer_instance

/-- The invariant of the request machinery: until the catalog has loaded there
is no catalog, no request and no results; the loader is displayed exactly while
a request is in flight; while one is in flight the button is disabled and
neither the error nor the results are displayed; at most one is in flight. -/
def FlagInv (p : Page) : Prop :=
  (p.moviesFetchPending = true →
    p.moviesList = [] ∧ p.recommendationsDisplay ≠ Display.block ∧ p.recommendPending = 0) ∧
  (p.loaderDisplay = Display.block ↔ p.recommendPending ≠ 0) ∧
  (p.recommendPending ≠ 0 →
    p.recommendBtnDisabled = true ∧ p.errorDisplay ≠ Display.block ∧
      p.recommendationsDisplay ≠ Display.block) ∧
  p.recommendPending ≤ 1

/-! ## Concrete inputs -/

/-- A markup with nothing written in the three places. -/
def emptyMarkup : Markup :=
  { selectedMovieText := [], errorText := [], moviesGrid := [] }

/-- The catalog of the example of the specification. -/
def exampleCatalog : List JSString :=
  [utf16 "Inception", utf16 "Interstellar", utf16 "Up"]

/-- A recommendation record. -/
def exampleMovie : Movie :=
  { title := utf16 "Up", poster := utf16 "/up.jpg", rating := utf16 "8.3",
    release := utf16 "2009-05-29", tagline := utf16 "Fly" }

/-- A recommendation record whose rating is the sentinel. -/
def unratedMovie : Movie :=
  { title := utf16 "Heat", poster := utf16 "/heat.jpg", rating := utf16 "N/A",
    release := utf16 "1995-12-15", tagline := utf16 "A Los Angeles crime saga" }

/-- The page once the catalog of the example has loaded. -/
def catalogPage : Page :=
  run asciiLower (initialPage emptyMarkup) [Event.moviesSettled (MoviesResponse.ok exampleCatalog)]

/-- The page of the example with a catalog title in the search field. -/
def selectedPage : Page :=
  run asciiLower catalogPage [Event.input (utf16 "Up")]

/-- The page of the example with a request in flight. -/
def loadingPage : Page :=
  step asciiLower selectedPage Event.clickRecommend

/-- A session in which results are rendered and the next click, on an emptied
field, is rejected. -/
def staleResultsTrace : List Event :=
  [Event.moviesSettled (MoviesResponse.ok exampleCatalog),
   Event.input (utf16 "Up"),
   Event.clickRecommend,
   Event.recommendSettled (RecommendResponse.ok (some [exampleMovie])),
   Event.input [],
   Event.clickRecommend]

/-- A session in which the first click is rejected, before any results are
displayed, and a later click passes validation and renders results. -/
def earlyRejectionTrace : List Event :=
  [Event.moviesSettled (MoviesResponse.ok exampleCatalog),
   Event.clickRecommend,
   Event.input (utf16 "Up"),
   Event.clickRecommend,
   Event.recommendSettled (RecommendResponse.ok (some [exampleMovie]))]

/-! ## Closed forms of the loops -/

theorem foldl_suggestions (l : List JSString) (q : Page) :
    l.foldl
      (fun q movie => { q with autocompleteItems := q.autocompleteItems ++ [suggestionItem movie] })
      q
    = { q with autocompleteItems := q.autocompleteItems ++ l.map suggestionItem } := by
  induction l generalizing q with
  | nil => simp
  | cons a l ih => simp [ih]

theorem foldl_cards (l : List Movie) (q : Page) :
    l.foldl (fun q movie => { q with moviesGrid := q.moviesGrid ++ [movieCard movie] }) q
    = { q with moviesGrid := q.moviesGrid ++ l.map movieCard } := by
  induction l generalizing q with
  | nil => simp
  | cons a l ih => simp [ih]

theorem displayRecommendations_eq (p : Page) (recommendations : List Movie) :
    displayRecommendations p recommendations
    = { p with
          moviesGrid := recommendations.map movieCard
          recommendationsDisplay := Display.block } := by
  simp [displayRecommendations, foldl_cards]

theorem onDebounce_eq (lower : JSString → JSString) (p : Page) (value : JSString) :
    onDebounce lower p value
    = { p with
          autocompleteItems := renderedItems lower p.moviesList value
          filterRuns := p.filterRuns ++ [value] } := by
  unfold onDebounce renderedItems
  by_cases h : filteredMovies lower p.moviesList value = []
  · simp [h]
  · simp [h, foldl_suggestions]

theorem foldl_debounce (lower : JSString → JSString) (ts : List Timer) (q : Page) :
    ts.foldl (fun q t => onDebounce lower q t.value) q
    = { q with
          autocompleteItems :=
            (ts.getLast?.map (fun t => renderedItems lower q.moviesList t.value)).getD
              q.autocompleteItems
          filterRuns := q.filterRuns ++ ts.map Timer.value } := by
  induction ts using List.reverseRecOn with
  | nil => simp
  | append_singleton ts t ih =>
    rw [List.foldl_append, ih]
    simp [onDebounce_eq]

theorem runTimers_eq (lower : JSString → JSString) (p : Page) (ms : Nat) :
    runTimers lower p ms
    = { p with
          timers := p.timers.filter (fun t => !decide (t.due ≤ p.now + ms))
          now := p.now + ms
          autocompleteItems :=
            (((p.timers.filter (fun t => decide (t.due ≤ p.now + ms))).getLast?).map
              (fun t => renderedItems lower p.moviesList t.value)).getD p.autocompleteItems
          filterRuns :=
            p.filterRuns
              ++ (p.timers.filter (fun t => decide (t.due ≤ p.now + ms))).map Timer.value } := by
  simp [runTimers, foldl_debounce]

/-! ## Validation -/

/-- C2: activating the recommend button while the search field is empty issues
no network request and shows "Please select a movie first": the listener leaves
the request log as it is, sets the error text and displays the error area, in
every page state; so does the click event on the (enabled) button. -/
theorem empty_field_rejected (lower : JSString → JSString) (p : Page)
    (hempty : p.movieSearchValue = []) :
    (onRecommendClick p).sent = p.sent ∧
    (onRecommendClick p).recommendPending = p.recommendPending ∧
    (onRecommendClick p).errorText = utf16 "Please select a movie first" ∧
    (onRecommendClick p).errorDisplay = Display.block ∧
    (onRecommendClick p).errorDisplay.visible = true ∧
    (step lower p Event.clickRecommend).sent = p.sent ∧
    (p.recommendBtnDisabled = false →
      (step lower p Event.clickRecommend).errorText = utf16 "Please select a movie first" ∧
      (step lower p Event.clickRecommend).errorDisplay = Display.block) := by
  have h : onRecommendClick p = showError p (utf16 "Please select a movie first") := by
    simp [onRecommendClick, hempty]
  refine ⟨by simp [h, showError], by simp [h, showError], by simp [h, showError],
    by simp [h, showError], by simp [h, showError, Display.visible], ?_, ?_⟩
  · cases hd : p.recommendBtnDisabled <;> simp [step, hd, h, showError, onOutsideClick]
  · intro hd
    simp [step, hd, h, showError, onOutsideClick]

theorem empty_field_rejected_witness :
    catalogPage.movieSearchValue = [] ∧
    (step asciiLower catalogPage Event.clickRecommend).sent = catalogPage.sent ∧
    (onRecommendClick catalogPage).errorText = utf16 "Please select a movie first" :=
  ⟨by decide, (empty_field_rejected asciiLower catalogPage (by decide)).2.2.2.2.2.1,
    (empty_field_rejected asciiLower catalogPage (by decide)).2.2.1⟩

/-- C3 (as stated, refuted): with the example catalog loaded and the search
field empty, the field value is not in the catalog, yet the error shown is
"Please select a movie first", not the "not found" error. -/
theorem not_found_counterexample :
    catalogPage.movieSearchValue ∉ catalogPage.moviesList ∧
    (step asciiLower catalogPage Event.clickRecommend).errorText
      = utf16 "Please select a movie first" ∧
    (step asciiLower catalogPage Event.clickRecommend).errorText
      ≠ utf16 "Movie not found in our database. Please try another one." := by
  decide

/-- C3 (amended): for every catalog and every non-empty search-field value that
is not present verbatim in the catalog, activating the recommend button issues
no network request and shows "Movie not found in our database. Please try
another one.". -/
theorem unknown_title_rejected (lower : JSString → JSString) (p : Page)
    (hne : p.movieSearchValue ≠ []) (habsent : p.movieSearchValue ∉ p.moviesList) :
    (onRecommendClick p).sent = p.sent ∧
    (onRecommendClick p).recommendPending = p.recommendPending ∧
    (onRecommendClick p).errorText
      = utf16 "Movie not found in our database. Please try another one." ∧
    (onRecommendClick p).errorDisplay = Display.block ∧
    (onRecommendClick p).errorDisplay.visible = true ∧
    (step lower p Event.clickRecommend).sent = p.sent ∧
    (p.recommendBtnDisabled = false →
      (step lower p Event.clickRecommend).errorText
        = utf16 "Movie not found in our database. Please try another one." ∧
      (step lower p Event.clickRecommend).errorDisplay = Display.block) := by
  have h : onRecommendClick p
      = showError p (utf16 "Movie not found in our database. Please try another one.") := by
    simp [onRecommendClick, hne, habsent]
  refine ⟨by simp [h, showError], by simp [h, showError], by simp [h, showError],
    by simp [h, showError], by simp [h, showError, Display.visible], ?_, ?_⟩
  · cases hd : p.recommendBtnDisabled <;> simp [step, hd, h, showError, onOutsideClick]
  · intro hd
    simp [step, hd, h, showError, onOutsideClick]

theorem unknown_title_rejected_witness :
    (run asciiLower catalogPage [Event.input (utf16 "Heat")]).movieSearchValue ≠ [] ∧
    (run asciiLower catalogPage [Event.input (utf16 "Heat")]).movieSearchValue
      ∉ (run asciiLower catalogPage [Event.input (utf16 "Heat")]).moviesList ∧
    (onRecommendClick (run asciiLower catalogPage [Event.input (utf16 "Heat")])).errorText
      = utf16 "Movie not found in our database. Please try another one." :=
  ⟨by decide, by decide,
    (unknown_title_rejected asciiLower
      (run asciiLower catalogPage [Event.input (utf16 "Heat")]) (by decide) (by decide)).2.2.1⟩

/-! ## Events that leave the request machinery alone -/

theorem step_passive_frame (lower : JSString → JSString) (p : Page) (e : Event)
    (h : e.isPassive = true) :
    (step lower p e).recommendPending = p.recommendPending ∧
    (step lower p e).recommendBtnDisabled = p.recommendBtnDisabled ∧
    (step lower p e).loaderDisplay = p.loaderDisplay ∧
    (step lower p e).recommendationsDisplay = p.recommendationsDisplay ∧
    (step lower p e).moviesGrid = p.moviesGrid ∧
    (step lower p e).sent = p.sent := by
  cases e with
  | moviesSettled r =>
      cases r <;> by_cases hp : p.moviesFetchPending = true <;>
        simp [step, hp, onMoviesSettled, showError]
  | input text =>
      by_cases hv : lower text = [] <;> cases hc : p.currentTimeout <;>
        simp [step, onInput, hv, hc, clearTimeout, setTimeout] <;> split <;> simp
  | elapse ms => simp [step, runTimers_eq]
  | clickItem k =>
      simp only [step]
      split
      · split
        · split <;> simp [onItemClick, onOutsideClick]
        · simp
      · simp
  | clickOutside => simp [step, onOutsideClick]
  | change => by_cases hv : p.movieSearchValue = [] <;> simp [step, onChange, hv]
  | clickRecommend => simp [Event.isPassive] at h
  | recommendSettled r => simp [Event.isPassive] at h

theorem run_passive_frame (lower : JSString → JSString) (es : List Event) (p : Page)
    (h : ∀ e ∈ es, e.isPassive = true) :
    (run lower p es).recommendPending = p.recommendPending ∧
    (run lower p es).recommendBtnDisabled = p.recommendBtnDisabled ∧
    (run lower p es).loaderDisplay = p.loaderDisplay ∧
    (run lower p es).recommendationsDisplay = p.recommendationsDisplay ∧
    (run lower p es).moviesGrid = p.moviesGrid ∧
    (run lower p es).sent = p.sent := by
  induction es generalizing p with
  | nil => simp [run]
  | cons e es ih =>
      have he := step_passive_frame lower p e (h e (List.mem_cons_self e es))
      have hes := ih (step lower p e) (fun x hx => h x (List.mem_cons_of_mem e hx))
      simp only [run, List.foldl_cons] at hes ⊢
      obtain ⟨h1, h2, h3, h4, h5, h6⟩ := he
      obtain ⟨g1, g2, g3, g4, g5, g6⟩ := hes
      exact ⟨g1.trans h1, g2.trans h2, g3.trans h3, g4.trans h4, g5.trans h5, g6.trans h6⟩

theorem click_accepted (lower : JSString → JSString) (p : Page)
    (henabled : p.recommendBtnDisabled = false) (hne : p.movieSearchValue ≠ [])
    (hin : p.movieSearchValue ∈ p.moviesList) :
    step lower p Event.clickRecommend
    = { p with
          autocompleteDisplay := Display.none
          errorDisplay := Display.none
          recommendationsDisplay := Display.none
          loaderDisplay := Display.block
          recommendBtnDisabled := true
          sent := p.sent ++ [Request.postRecommend p.movieSearchValue]
          recommendPending := p.recommendPending + 1 } := by
  simp [step, henabled, onRecommendClick, hne, hin, onOutsideClick]

/-! ## The recommendation request -/

theorem settled_cleanup (lower : JSString → JSString) (q : Page) (r : RecommendResponse)
    (h : q.recommendPending ≠ 0) :
    (step lower q (Event.recommendSettled r)).recommendBtnDisabled = false ∧
    (step lower q (Event.recommendSettled r)).loaderDisplay = Display.none := by
  simp [step, h, onRecommendSettled]

/-- C4: for every recommendation request that was issued (the click passed
validation) and every outcome of it, whatever passive events happen meanwhile:
the request is logged, the button is disabled and the loader shown while it is
in flight, and once it completes the button is enabled and the loader hidden. -/
theorem cleanup_after_request (lower : JSString → JSString) (p : Page) (es : List Event)
    (r : RecommendResponse)
    (henabled : p.recommendBtnDisabled = false) (hne : p.movieSearchValue ≠ [])
    (hin : p.movieSearchValue ∈ p.moviesList) (hes : ∀ e ∈ es, e.isPassive = true) :
    (step lower p Event.clickRecommend).sent
      = p.sent ++ [Request.postRecommend p.movieSearchValue] ∧
    (run lower (step lower p Event.clickRecommend) es).recommendBtnDisabled = true ∧
    (run lower (step lower p Event.clickRecommend) es).loaderDisplay = Display.block ∧
    (step lower (run lower (step lower p Event.clickRecommend) es)
      (Event.recommendSettled r)).recommendBtnDisabled = false ∧
    (step lower (run lower (step lower p Event.clickRecommend) es)
      (Event.recommendSettled r)).loaderDisplay = Display.none ∧
    (step lower (run lower (step lower p Event.clickRecommend) es)
      (Event.recommendSettled r)).loaderDisplay.visible = false := by
  obtain ⟨f1, f2, f3, -, -, -⟩ :=
    run_passive_frame lower es (step lower p Event.clickRecommend) hes
  have hc := click_accepted lower p henabled hne hin
  have hpend : (run lower (step lower p Event.clickRecommend) es).recommendPending ≠ 0 := by
    rw [f1, hc]; simp
  obtain ⟨s1, s2⟩ := settled_cleanup lower _ r hpend
  exact ⟨by rw [hc], by rw [f2, hc], by rw [f3, hc], s1, s2, by rw [s2]; rfl⟩

theorem cleanup_after_request_witness :
    selectedPage.recommendBtnDisabled = false ∧
    selectedPage.movieSearchValue ∈ selectedPage.moviesList ∧
    (step asciiLower (run asciiLower loadingPage [Event.elapse 300])
      (Event.recommendSettled RecommendResponse.notOk)).recommendBtnDisabled = false ∧
    (step asciiLower (run asciiLower loadingPage [Event.elapse 300])
      (Event.recommendSettled RecommendResponse.notOk)).loaderDisplay = Display.none :=
  ⟨by decide, by decide,
    (cleanup_after_request asciiLower selectedPage [Event.elapse 300] RecommendResponse.notOk
      (by decide) (by decide) (by decide) (by decide)).2.2.2.1,
    (cleanup_after_request asciiLower selectedPage [Event.elapse 300] RecommendResponse.notOk
      (by decide) (by decide) (by decide) (by decide)).2.2.2.2.1⟩

/-- C5: when a request in flight succeeds with a non-empty recommendations
array of length n, the grid afterwards holds exactly n cards whatever it held
before; the i-th card is the one built from the i-th record: its class is
"movie-card" and its markup is the template of the script filled with the
poster, title, rating (in a badge, or the plain marker for "N/A"), release date
and tagline of that record; and the results panel is displayed. -/
theorem cards_rendered (lower : JSString → JSString) (p : Page) (recs : List Movie)
    (hflight : 0 < p.recommendPending) (hne : recs ≠ []) :
    (step lower p (Event.recommendSettled (RecommendResponse.ok (some recs)))).moviesGrid.length
      = recs.length ∧
    (∀ i, (step lower p (Event.recommendSettled (RecommendResponse.ok (some recs)))).moviesGrid.get? i
      = (recs.get? i).map movieCard) ∧
    (∀ i r, recs.get? i = some r →
      ∃ card,
        (step lower p
          (Event.recommendSettled (RecommendResponse.ok (some recs)))).moviesGrid.get? i
          = some card ∧
        card.className = utf16 "movie-card" ∧
        card.innerHTML
          = (utf16 "\n                        <img class=\"movie-poster\" src=\"" ++ r.poster
            ++ utf16 "\" alt=\"" ++ r.title
            ++ utf16 "\" onerror=\"this.src=\x27https://via.placeholder.com/300x450/2c5364/ffffff?text=No+Image\x27\">\n                        <p class=\"movie-title\">"
            ++ r.title
            ++ utf16 "</p>\n                        <p class=\"movie-meta\">"
            ++ (if r.rating ≠ utf16 "N/A" then
                  utf16 "<span class=\"rating-badge\">\u201a\u2260\u00ea " ++ r.rating
                    ++ utf16 "</span>"
                else utf16 "\u201a\u2260\u00ea N/A")
            ++ utf16 " | \uf8ff\u00fc\u00ec\u00d6 " ++ r.release
            ++ utf16 "</p>\n                        <p class=\"movie-tagline\">\"" ++ r.tagline
            ++ utf16 "\"</p>\n                    ")) ∧
    (step lower p (Event.recommendSettled (RecommendResponse.ok (some recs)))).recommendationsDisplay
      = Display.block ∧
    (step lower p
      (Event.recommendSettled (RecommendResponse.ok (some recs)))).recommendationsDisplay.visible
      = true := by
  have hp : p.recommendPending ≠ 0 := Nat.pos_iff_ne_zero.mp hflight
  have hl : 0 < recs.length := List.length_pos.mpr hne
  have hs : step lower p (Event.recommendSettled (RecommendResponse.ok (some recs)))
      = { p with
            recommendPending := p.recommendPending - 1
            moviesGrid := recs.map movieCard
            recommendationsDisplay := Display.block
            loaderDisplay := Display.none
            recommendBtnDisabled := false } := by
    simp [step, hp, onRecommendSettled, hl, displayRecommendations_eq]
  rw [hs]
  refine ⟨by simp, ?_, ?_, rfl, rfl⟩
  · intro i
    simp [List.get?_eq_getElem?]
  · intro i r hr
    refine ⟨movieCard r, ?_, rfl, rfl⟩
    simp only [List.get?_eq_getElem?] at hr
    simp [List.get?_eq_getElem?, hr]

set_option maxRecDepth 100000

theorem cards_rendered_witness :
    0 < loadingPage.recommendPending ∧
    (step asciiLower loadingPage
      (Event.recommendSettled (RecommendResponse.ok (some [exampleMovie, unratedMovie])))).moviesGrid.length
      = 2 ∧
    (step asciiLower loadingPage
      (Event.recommendSettled (RecommendResponse.ok (some [exampleMovie, unratedMovie])))).moviesGrid
      = [{ className := utf16 "movie-card"
           innerHTML := utf16 "\n                        <img class=\"movie-poster\" src=\"/up.jpg\" alt=\"Up\" onerror=\"this.src=\x27https://via.placeholder.com/300x450/2c5364/ffffff?text=No+Image\x27\">\n                        <p class=\"movie-title\">Up</p>\n                        <p class=\"movie-meta\"><span class=\"rating-badge\">\u201a\u2260\u00ea 8.3</span> | \uf8ff\u00fc\u00ec\u00d6 2009-05-29</p>\n                        <p class=\"movie-tagline\">\"Fly\"</p>\n                    " },
         { className := utf16 "movie-card"
           innerHTML := utf16 "\n                        <img class=\"movie-poster\" src=\"/heat.jpg\" alt=\"Heat\" onerror=\"this.src=\x27https://via.placeholder.com/300x450/2c5364/ffffff?text=No+Image\x27\">\n                        <p class=\"movie-title\">Heat</p>\n                        <p class=\"movie-meta\">\u201a\u2260\u00ea N/A | \uf8ff\u00fc\u00ec\u00d6 1995-12-15</p>\n                        <p class=\"movie-tagline\">\"A Los Angeles crime saga\"</p>\n                    " }] ∧
    (step asciiLower loadingPage
      (Event.recommendSettled
        (RecommendResponse.ok (some [exampleMovie, unratedMovie])))).recommendationsDisplay
      = Display.block :=
  ⟨by decide,
    (cards_rendered asciiLower loadingPage [exampleMovie, unratedMovie]
      (by decide) (by decide)).1,
    by decide,
    (cards_rendered asciiLower loadingPage [exampleMovie, unratedMovie]
      (by decide) (by decide)).2.2.2.1⟩

theorem run_append (lower : JSString → JSString) (p : Page) (a b : List Event) :
    run lower p (a ++ b) = run lower (run lower p a) b := by
  simp [run, List.foldl_append]

theorem run_cons (lower : JSString → JSString) (p : Page) (e : Event) (es : List Event) :
    run lower p (e :: es) = run lower (step lower p e) es := rfl

theorem run_nil (lower : JSString → JSString) (p : Page) : run lower p [] = p := rfl

/-- C6: when a click passes validation and its request succeeds with an empty
recommendations array, "No recommendations found. Please try another movie." is
shown when the response arrives, and after every number of events from the
click on, up to the next click on the button, the results panel is hidden
(its display is `none`). -/
theorem no_recommendations_error (lower : JSString → JSString) (p : Page)
    (es1 es2 : List Event)
    (henabled : p.recommendBtnDisabled = false) (hne : p.movieSearchValue ≠ [])
    (hin : p.movieSearchValue ∈ p.moviesList)
    (h1 : ∀ e ∈ es1, e.isPassive = true) (h2 : ∀ e ∈ es2, e.isPassive = true) :
    (run lower (step lower p Event.clickRecommend)
      (es1 ++ [Event.recommendSettled (RecommendResponse.ok (some []))])).errorText
      = utf16 "No recommendations found. Please try another movie." ∧
    (run lower (step lower p Event.clickRecommend)
      (es1 ++ [Event.recommendSettled (RecommendResponse.ok (some []))])).errorDisplay
      = Display.block ∧
    ∀ n, (run lower (step lower p Event.clickRecommend)
      ((es1 ++ Event.recommendSettled (RecommendResponse.ok (some [])) :: es2).take n)
        ).recommendationsDisplay = Display.none := by
  have hc := click_accepted lower p henabled hne hin
  obtain ⟨f1, -, -, f4, -, -⟩ :=
    run_passive_frame lower es1 (step lower p Event.clickRecommend) h1
  have hpend : (run lower (step lower p Event.clickRecommend) es1).recommendPending ≠ 0 := by
    rw [f1, hc]; simp
  have hrec : (run lower (step lower p Event.clickRecommend) es1).recommendationsDisplay
      = Display.none := by
    rw [f4, hc]
  have hs : ∀ q : Page, q.recommendPending ≠ 0 →
      step lower q (Event.recommendSettled (RecommendResponse.ok (some [])))
      = { q with
            recommendPending := q.recommendPending - 1
            errorText := utf16 "No recommendations found. Please try another movie."
            errorDisplay := Display.block
            loaderDisplay := Display.none
            recommendBtnDisabled := false } := by
    intro q hq
    simp [step, hq, onRecommendSettled, showError]
  refine ⟨?_, ?_, ?_⟩
  · rw [run_append, run_cons, run_nil, hs _ hpend]
  · rw [run_append, run_cons, run_nil, hs _ hpend]
  · intro n
    rw [List.take_append_eq_append_take, run_append]
    obtain ⟨-, -, -, g4, -, -⟩ :=
      run_passive_frame lower (es1.take n) (step lower p Event.clickRecommend)
        (fun e he => h1 e (List.mem_of_mem_take he))
    cases hk : n - es1.length with
    | zero => rw [List.take_zero, run_nil, g4, hc]
    | succ k =>
        have hn : es1.length ≤ n := by omega
        rw [List.take_of_length_le hn, List.take_succ_cons, run_cons]
        obtain ⟨-, -, -, k4, -, -⟩ :=
          run_passive_frame lower (es2.take k)
            (step lower (run lower (step lower p Event.clickRecommend) es1)
              (Event.recommendSettled (RecommendResponse.ok (some []))))
            (fun e he => h2 e (List.mem_of_mem_take he))
        rw [k4, hs _ hpend]
        exact hrec

theorem no_recommendations_error_witness :
    selectedPage.recommendBtnDisabled = false ∧
    selectedPage.movieSearchValue ∈ selectedPage.moviesList ∧
    (run asciiLower loadingPage
      ([Event.elapse 300] ++ [Event.recommendSettled (RecommendResponse.ok (some []))])).errorText
      = utf16 "No recommendations found. Please try another movie." ∧
    (run asciiLower loadingPage
      (([Event.elapse 300] ++ Event.recommendSettled (RecommendResponse.ok (some []))
        :: [Event.clickOutside]).take 3)).recommendationsDisplay = Display.none :=
  ⟨by decide, by decide,
    (no_recommendations_error asciiLower selectedPage [Event.elapse 300] [Event.clickOutside]
      (by decide) (by decide) (by decide) (by decide) (by decide)).1,
    (no_recommendations_error asciiLower selectedPage [Event.elapse 300] [Event.clickOutside]
      (by decide) (by decide) (by decide) (by decide) (by decide)).2.2 3⟩

/-! ## The display flags -/

theorem step_local_frame (lower : JSString → JSString) (p : Page) (e : Event)
    (h : e.isLocal = true) :
    (step lower p e).moviesList = p.moviesList ∧
    (step lower p e).moviesFetchPending = p.moviesFetchPending ∧
    (step lower p e).recommendPending = p.recommendPending ∧
    (step lower p e).recommendBtnDisabled = p.recommendBtnDisabled ∧
    (step lower p e).loaderDisplay = p.loaderDisplay ∧
    (step lower p e).errorDisplay = p.errorDisplay ∧
    (step lower p e).recommendationsDisplay = p.recommendationsDisplay ∧
    (step lower p e).sent = p.sent := by
  cases e with
  | moviesSettled r => simp [Event.isLocal] at h
  | input text =>
      by_cases hv : lower text = [] <;> cases hc : p.currentTimeout <;>
        simp [step, onInput, hv, hc, clearTimeout, setTimeout] <;> split <;> simp
  | elapse ms => simp [step, runTimers_eq]
  | clickItem k =>
      simp only [step]
      split
      · split
        · split <;> simp [onItemClick, onOutsideClick]
        · simp
      · simp
  | clickOutside => simp [step, onOutsideClick]
  | change => by_cases hv : p.movieSearchValue = [] <;> simp [step, onChange, hv]
  | clickRecommend => simp [Event.isLocal] at h
  | recommendSettled r => simp [Event.isLocal] at h

theorem step_local_flagInv (lower : JSString → JSString) (p : Page) (e : Event)
    (h : e.isLocal = true) (hinv : FlagInv p) : FlagInv (step lower p e) := by
  obtain ⟨f1, f2, f3, f4, f5, f6, f7, -⟩ := step_local_frame lower p e h
  unfold FlagInv
  rw [f1, f2, f3, f4, f5, f6, f7]
  exact hinv

theorem settled_frame (lower : JSString → JSString) (q : Page) (r : RecommendResponse)
    (h : q.recommendPending ≠ 0) :
    (step lower q (Event.recommendSettled r)).moviesList = q.moviesList ∧
    (step lower q (Event.recommendSettled r)).moviesFetchPending = q.moviesFetchPending ∧
    (step lower q (Event.recommendSettled r)).recommendPending = q.recommendPending - 1 ∧
    (step lower q (Event.recommendSettled r)).recommendBtnDisabled = false ∧
    (step lower q (Event.recommendSettled r)).loaderDisplay = Display.none ∧
    (step lower q (Event.recommendSettled r)).sent = q.sent ∧
    (((step lower q (Event.recommendSettled r)).errorDisplay = Display.block ∧
        (step lower q (Event.recommendSettled r)).recommendationsDisplay
          = q.recommendationsDisplay) ∨
      ((step lower q (Event.recommendSettled r)).errorDisplay = q.errorDisplay ∧
        (step lower q (Event.recommendSettled r)).recommendationsDisplay = Display.block)) := by
  rcases r with _ | _ | recs
  · simp [step, h, onRecommendSettled, showError]
  · simp [step, h, onRecommendSettled, showError]
  · cases recs with
    | none => simp [step, h, onRecommendSettled, showError]
    | some l =>
        by_cases hl : 0 < l.length
        · simp [step, h, onRecommendSettled, hl, displayRecommendations_eq]
        · simp [step, h, onRecommendSettled, hl, showError]

theorem initialPage_flagInv (m : Markup) : FlagInv (initialPage m) := by
  simp [FlagInv, initialPage]

theorem step_flagInv (lower : JSString → JSString) (p : Page) (e : Event) (h : FlagInv p) :
    FlagInv (step lower p e) := by
  obtain ⟨ha, hb, hc, hd⟩ := h
  cases e with
  | moviesSettled r =>
      by_cases hp : p.moviesFetchPending = true
      · obtain ⟨a1, a2, a3⟩ := ha hp
        cases r <;> simp [FlagInv, step, hp, onMoviesSettled, showError, a2, a3, hb]
      · simp only [step, hp]
        exact ⟨ha, hb, hc, hd⟩
  | input text => exact step_local_flagInv lower p _ rfl ⟨ha, hb, hc, hd⟩
  | elapse ms => exact step_local_flagInv lower p _ rfl ⟨ha, hb, hc, hd⟩
  | clickItem k => exact step_local_flagInv lower p _ rfl ⟨ha, hb, hc, hd⟩
  | clickOutside => exact step_local_flagInv lower p _ rfl ⟨ha, hb, hc, hd⟩
  | change => exact step_local_flagInv lower p _ rfl ⟨ha, hb, hc, hd⟩
  | clickRecommend =>
      by_cases hdis : p.recommendBtnDisabled = true
      · simp only [step, hdis]
        exact ⟨ha, hb, hc, hd⟩
      · have hdis2 : p.recommendBtnDisabled = false := by simpa using hdis
        have hp0 : p.recommendPending = 0 := by
          by_contra hne
          have := (hc hne).1
          simp [hdis2] at this
        have hl : p.loaderDisplay ≠ Display.block := by
          intro hl
          exact (hb.mp hl) hp0
        by_cases hv : p.movieSearchValue = []
        · simp [FlagInv, step, hdis2, onRecommendClick, hv, showError, onOutsideClick, hp0, hl]
          intro hf
          exact ⟨(ha hf).1, (ha hf).2.1⟩
        · by_cases hin : p.movieSearchValue ∈ p.moviesList
          · have hf : p.moviesFetchPending = false := by
              cases hfp : p.moviesFetchPending with
              | false => rfl
              | true =>
                  rw [(ha hfp).1] at hin
                  simp at hin
            rw [click_accepted lower p hdis2 hv hin]
            simp [FlagInv, hp0, hf]
          · simp [FlagInv, step, hdis2, onRecommendClick, hv, hin, showError, onOutsideClick,
              hp0, hl]
            intro hf
            exact ⟨(ha hf).1, (ha hf).2.1⟩
  | recommendSettled r =>
      by_cases hp0 : p.recommendPending = 0
      · simp only [step, hp0]
        simp
        exact ⟨ha, hb, hc, hd⟩
      · have hp1 : p.recommendPending = 1 := by omega
        have hf : p.moviesFetchPending = false := by
          by_contra hne
          have hne2 : p.moviesFetchPending = true := by simpa using hne
          exact hp0 (ha hne2).2.2
        obtain ⟨-, s2, s3, s4, s5, -, -⟩ := settled_frame lower p r hp0
        unfold FlagInv
        rw [s2, s3, s5, hf, hp1]
        simp

theorem run_flagInv (lower : JSString → JSString) (es : List Event) (p : Page)
    (h : FlagInv p) : FlagInv (run lower p es) := by
  induction es generalizing p with
  | nil => exact h
  | cons e es ih => exact ih (step lower p e) (step_flagInv lower p e h)

theorem one_request_in_flight (lower : JSString → JSString) (m : Markup) (es : List Event) :
    (run lower (initialPage m) es).recommendPending ≤ 1 :=
  (run_flagInv lower es (initialPage m) (initialPage_flagInv m)).2.2.2

theorem staleMark_of_other (p : Page) (e : Event) (mark : Bool)
    (h : e ≠ Event.clickRecommend) : staleMark p e mark = mark := by
  cases e <;> simp [staleMark, rejects, accepts] at h ⊢

theorem step_stale (lower : JSString → JSString) (p : Page) (e : Event) (mark : Bool)
    (h : FlagInv p)
    (hx : (p.errorDisplay = Display.block ∧ p.recommendationsDisplay = Display.block)
      ↔ mark = true) :
    ((step lower p e).errorDisplay = Display.block ∧
        (step lower p e).recommendationsDisplay = Display.block)
      ↔ staleMark p e mark = true := by
  obtain ⟨ha, hb, hc, hd⟩ := h
  have local_case : e.isLocal = true → e ≠ Event.clickRecommend →
      (((step lower p e).errorDisplay = Display.block ∧
        (step lower p e).recommendationsDisplay = Display.block)
      ↔ staleMark p e mark = true) := by
    intro hl hne
    obtain ⟨-, -, -, -, -, f6, f7, -⟩ := step_local_frame lower p e hl
    rw [f6, f7, staleMark_of_other p e mark hne]
    exact hx
  cases e with
  | moviesSettled r =>
      rw [staleMark_of_other p _ mark (by simp)]
      by_cases hp : p.moviesFetchPending = true
      · obtain ⟨a1, a2, a3⟩ := ha hp
        have hm : mark = false := by
          cases hmark : mark with
          | false => rfl
          | true => exact absurd (hx.mpr hmark).2 a2
        cases r <;> simp [step, hp, onMoviesSettled, showError, a2, hm]
      · have hs : step lower p (Event.moviesSettled r) = p := by simp [step, hp]
        rw [hs]
        exact hx
  | input text => exact local_case rfl (by simp)
  | elapse ms => exact local_case rfl (by simp)
  | clickItem k => exact local_case rfl (by simp)
  | clickOutside => exact local_case rfl (by simp)
  | change => exact local_case rfl (by simp)
  | clickRecommend =>
      cases hdis : p.recommendBtnDisabled with
      | true =>
          have hs : step lower p Event.clickRecommend = p := by simp [step, hdis]
          rw [hs]
          simp [staleMark, rejects, accepts, hdis]
          exact hx
      | false =>
          by_cases hv : p.movieSearchValue = []
          · by_cases hrec : p.recommendationsDisplay = Display.block
            · simp [step, hdis, onRecommendClick, hv, showError, onOutsideClick, staleMark,
                rejects, accepts, hrec]
            · have hm : mark = false := by
                cases hmark : mark with
                | false => rfl
                | true => exact absurd (hx.mpr hmark).2 hrec
              simp [step, hdis, onRecommendClick, hv, showError, onOutsideClick, staleMark,
                rejects, accepts, hrec, hm]
          · by_cases hin : p.movieSearchValue ∈ p.moviesList
            · rw [click_accepted lower p hdis hv hin]
              simp [staleMark, rejects, accepts, hdis, hv, hin]
            · by_cases hrec : p.recommendationsDisplay = Display.block
              · simp [step, hdis, onRecommendClick, hv, hin, showError, onOutsideClick,
                  staleMark, rejects, accepts, hrec]
              · have hm : mark = false := by
                  cases hmark : mark with
                  | false => rfl
                  | true => exact absurd (hx.mpr hmark).2 hrec
                simp [step, hdis, onRecommendClick, hv, hin, showError, onOutsideClick,
                  staleMark, rejects, accepts, hrec, hm]
  | recommendSettled r =>
      rw [staleMark_of_other p _ mark (by simp)]
      by_cases hp0 : p.recommendPending = 0
      · have hs : step lower p (Event.recommendSettled r) = p := by simp [step, hp0]
        rw [hs]
        exact hx
      · obtain ⟨c1, c2, c3⟩ := hc hp0
        have hm : mark = false := by
          cases hmark : mark with
          | false => rfl
          | true => exact absurd (hx.mpr hmark).2 c3
        obtain ⟨-, -, -, -, -, -, s6⟩ := settled_frame lower p r hp0
        rw [hm]
        simp only [Bool.false_eq_true, iff_false]
        rcases s6 with ⟨-, k2⟩ | ⟨k1, -⟩
        · rw [k2]
          exact fun hh => c3 hh.2
        · rw [k1]
          exact fun hh => c2 hh.1

theorem run_stale (lower : JSString → JSString) (es : List Event) (p : Page) (mark : Bool)
    (h : FlagInv p)
    (hx : (p.errorDisplay = Display.block ∧ p.recommendationsDisplay = Display.block)
      ↔ mark = true) :
    ((run lower p es).errorDisplay = Display.block ∧
        (run lower p es).recommendationsDisplay = Display.block)
      ↔ staleAfter lower p mark es = true := by
  induction es generalizing p mark with
  | nil => exact hx
  | cons e es ih =>
      exact ih (step lower p e) (staleMark p e mark) (step_flagInv lower p e h)
        (step_stale lower p e mark h hx)

/-- C7 (as stated, refuted): after results have been rendered, a click on the
button with the field emptied shows the error while the results panel is still
displayed: two of the three flags are visible. -/
theorem flags_not_exclusive :
    ¬ MutuallyExclusive (run asciiLower (initialPage emptyMarkup) staleResultsTrace) := by
  decide

/-- C7 (amended): in every state reachable from the initial page by any
sequence of page events, the loading indicator is never visible together with
the error message or with the results panel; the error message and the results
panel are visible together exactly when a click on the button was rejected by
validation while the results panel was displayed and no click has passed
validation since; in every other reachable state at most one of the three is
visible. -/
theorem loader_exclusive (lower : JSString → JSString) (m : Markup) (es : List Event) :
    ¬ ((run lower (initialPage m) es).loaderDisplay.visible = true ∧
        (run lower (initialPage m) es).errorDisplay.visible = true) ∧
    ¬ ((run lower (initialPage m) es).loaderDisplay.visible = true ∧
        (run lower (initialPage m) es).recommendationsDisplay.visible = true) ∧
    (((run lower (initialPage m) es).errorDisplay.visible = true ∧
        (run lower (initialPage m) es).recommendationsDisplay.visible = true)
      ↔ staleRejection lower (initialPage m) es = true) ∧
    (MutuallyExclusive (run lower (initialPage m) es)
      ↔ staleRejection lower (initialPage m) es = false) := by
  obtain ⟨-, hb, hc, -⟩ := run_flagInv lower es (initialPage m) (initialPage_flagInv m)
  have h1 : ¬ ((run lower (initialPage m) es).loaderDisplay.visible = true ∧
      (run lower (initialPage m) es).errorDisplay.visible = true) := by
    simp only [Display.visible, beq_iff_eq]
    rintro ⟨hl, he⟩
    exact (hc (hb.mp hl)).2.1 he
  have h2 : ¬ ((run lower (initialPage m) es).loaderDisplay.visible = true ∧
      (run lower (initialPage m) es).recommendationsDisplay.visible = true) := by
    simp only [Display.visible, beq_iff_eq]
    rintro ⟨hl, he⟩
    exact (hc (hb.mp hl)).2.2 he
  have hx := run_stale lower es (initialPage m) false (initialPage_flagInv m)
    (by simp [initialPage])
  have h3 : ((run lower (initialPage m) es).errorDisplay.visible = true ∧
      (run lower (initialPage m) es).recommendationsDisplay.visible = true)
      ↔ staleRejection lower (initialPage m) es = true := by
    simpa only [Display.visible, beq_iff_eq, staleRejection] using hx
  refine ⟨h1, h2, h3, ?_⟩
  constructor
  · intro hme
    cases hst : staleRejection lower (initialPage m) es with
    | false => rfl
    | true => exact absurd (h3.mpr hst) hme.2.2
  · intro hst
    refine ⟨h1, h2, fun hboth => ?_⟩
    rw [h3.mp hboth] at hst
    exact Bool.noConfusion hst

theorem loader_exclusive_witness :
    rejects (run asciiLower (initialPage emptyMarkup) (earlyRejectionTrace.take 1))
      Event.clickRecommend = true ∧
    staleRejection asciiLower (initialPage emptyMarkup) earlyRejectionTrace = false ∧
    MutuallyExclusive (run asciiLower (initialPage emptyMarkup) earlyRejectionTrace) ∧
    staleRejection asciiLower (initialPage emptyMarkup) staleResultsTrace = true :=
  ⟨by decide, by decide,
    (loader_exclusive asciiLower emptyMarkup earlyRejectionTrace).2.2.2.mpr (by decide),
    (loader_exclusive asciiLower emptyMarkup staleResultsTrace).2.2.1.mp (by decide)⟩

/-! ## The catalog load -/

theorem step_no_catalog (lower : JSString → JSString) (p : Page) (e : Event)
    (hm : p.moviesList = [])
    (h : p.moviesFetchPending = false ∨ ∀ r, e ≠ Event.moviesSettled r) :
    (step lower p e).moviesList = [] ∧
    (step lower p e).sent = p.sent ∧
    (step lower p e).moviesFetchPending = p.moviesFetchPending := by
  have local_case : e.isLocal = true →
      (step lower p e).moviesList = [] ∧ (step lower p e).sent = p.sent ∧
      (step lower p e).moviesFetchPending = p.moviesFetchPending := by
    intro hl
    obtain ⟨f1, f2, -, -, -, -, -, f8⟩ := step_local_frame lower p e hl
    exact ⟨f1.trans hm, f8, f2⟩
  cases e with
  | moviesSettled r =>
      rcases h with h | h
      · simp [step, h, hm]
      · exact absurd rfl (h r)
  | input text => exact local_case rfl
  | elapse ms => exact local_case rfl
  | clickItem k => exact local_case rfl
  | clickOutside => exact local_case rfl
  | change => exact local_case rfl
  | clickRecommend =>
      cases hd : p.recommendBtnDisabled
      · by_cases hv : p.movieSearchValue = [] <;>
          simp [step, hd, onRecommendClick, hv, hm, showError, onOutsideClick]
      · simp [step, hd, hm]
  | recommendSettled r =>
      by_cases hp0 : p.recommendPending = 0
      · simp [step, hp0, hm]
      · obtain ⟨s1, s2, -, -, -, s6, -⟩ := settled_frame lower p r hp0
        exact ⟨s1.trans hm, s6, s2⟩

theorem run_no_catalog (lower : JSString → JSString) (es : List Event) (p : Page)
    (hm : p.moviesList = [])
    (h : p.moviesFetchPending = false ∨ ∀ e ∈ es, ∀ r, e ≠ Event.moviesSettled r) :
    (run lower p es).moviesList = [] ∧
    (run lower p es).sent = p.sent ∧
    (run lower p es).moviesFetchPending = p.moviesFetchPending := by
  induction es generalizing p with
  | nil => exact ⟨hm, rfl, rfl⟩
  | cons e es ih =>
      have he : p.moviesFetchPending = false ∨ ∀ r, e ≠ Event.moviesSettled r :=
        h.imp id (fun h2 => h2 e (List.mem_cons_self e es))
      obtain ⟨a1, a2, a3⟩ := step_no_catalog lower p e hm he
      have hes : (step lower p e).moviesFetchPending = false ∨
          ∀ x ∈ es, ∀ r, x ≠ Event.moviesSettled r := by
        rcases h with h | h
        · exact Or.inl (a3.trans h)
        · exact Or.inr (fun x hx => h x (List.mem_cons_of_mem e hx))
      obtain ⟨b1, b2, b3⟩ := ih (step lower p e) a1 hes
      rw [run_cons]
      exact ⟨b1, b2.trans a2, b3.trans a3⟩

/-- C9: if the catalog load fails (transport error or non-success status),
whatever the user did before the failure arrived, "Failed to load movie
database. Please refresh the page." is shown; the catalog is empty after every
number of events of the session and no request other than the catalog load is
ever issued; and in every page state with an empty catalog, for every value of
the search field, a click on the recommend button is rejected with the error
area displayed and no request issued. -/
theorem catalog_failure_fails_closed (lower : JSString → JSString) (m : Markup)
    (es0 es1 : List Event) (r : MoviesResponse)
    (hr : r = MoviesResponse.networkError ∨ r = MoviesResponse.notOk)
    (hbefore : ∀ e ∈ es0, e.isCatalogLoad = false) :
    (run lower (initialPage m) (es0 ++ [Event.moviesSettled r])).errorText
      = utf16 "Failed to load movie database. Please refresh the page." ∧
    (run lower (initialPage m) (es0 ++ [Event.moviesSettled r])).errorDisplay = Display.block ∧
    (∀ n, (run lower (initialPage m) ((es0 ++ Event.moviesSettled r :: es1).take n)).moviesList = []
      ∧ (run lower (initialPage m) ((es0 ++ Event.moviesSettled r :: es1).take n)).sent
          = [Request.getMovies]) ∧
    (∀ q : Page, q.moviesList = [] →
      (onRecommendClick q).sent = q.sent ∧
      (onRecommendClick q).recommendPending = q.recommendPending ∧
      (onRecommendClick q).errorDisplay = Display.block ∧
      ((onRecommendClick q).errorText = utf16 "Please select a movie first" ∨
        (onRecommendClick q).errorText
          = utf16 "Movie not found in our database. Please try another one.") ∧
      (step lower q Event.clickRecommend).sent = q.sent) := by
  have h0 : ∀ e ∈ es0, ∀ r0, e ≠ Event.moviesSettled r0 := by
    intro e he r0 hh
    have h1 := hbefore e he
    rw [hh] at h1
    simp [Event.isCatalogLoad] at h1
  obtain ⟨a1, a2, a3⟩ := run_no_catalog lower es0 (initialPage m) rfl (Or.inr h0)
  have hfail : ∀ q : Page, q.moviesFetchPending = true →
      step lower q (Event.moviesSettled r)
      = { q with
            moviesFetchPending := false
            errorText := utf16 "Failed to load movie database. Please refresh the page."
            errorDisplay := Display.block } := by
    intro q hq
    rcases hr with hr | hr <;> simp [hr, step, hq, onMoviesSettled, showError]
  have hpend : (run lower (initialPage m) es0).moviesFetchPending = true := by
    rw [a3]; rfl
  refine ⟨?_, ?_, ?_, ?_⟩
  · rw [run_append, run_cons, run_nil, hfail _ hpend]
  · rw [run_append, run_cons, run_nil, hfail _ hpend]
  · intro n
    rw [List.take_append_eq_append_take, run_append]
    obtain ⟨b1, b2, b3⟩ := run_no_catalog lower (es0.take n) (initialPage m) rfl
      (Or.inr (fun e he => h0 e (List.mem_of_mem_take he)))
    cases hk : n - es0.length with
    | zero =>
        rw [List.take_zero, run_nil]
        exact ⟨b1, b2⟩
    | succ k =>
        have hn : es0.length ≤ n := by omega
        rw [List.take_of_length_le hn, List.take_succ_cons, run_cons, hfail _ hpend]
        obtain ⟨c1, c2, -⟩ := run_no_catalog lower (es1.take k)
          { run lower (initialPage m) es0 with
              moviesFetchPending := false
              errorText := utf16 "Failed to load movie database. Please refresh the page."
              errorDisplay := Display.block }
          a1 (Or.inl rfl)
        exact ⟨c1, c2.trans a2⟩
  · intro q hq
    have hstep := (step_no_catalog lower q Event.clickRecommend hq
      (Or.inr (fun r0 hh => by cases hh))).2.1
    by_cases hv : q.movieSearchValue = [] <;>
      simp [onRecommendClick, hv, hq, showError, hstep]

theorem catalog_failure_fails_closed_witness :
    (run asciiLower (initialPage emptyMarkup)
      ([Event.input (utf16 "Up")] ++ [Event.moviesSettled MoviesResponse.notOk])).errorDisplay
      = Display.block ∧
    (run asciiLower (initialPage emptyMarkup)
      (([Event.input (utf16 "Up")] ++ Event.moviesSettled MoviesResponse.notOk
        :: [Event.clickRecommend]).take 3)).sent = [Request.getMovies] :=
  ⟨(catalog_failure_fails_closed asciiLower emptyMarkup [Event.input (utf16 "Up")]
      [Event.clickRecommend] MoviesResponse.notOk (Or.inr rfl) (by decide)).2.1,
    ((catalog_failure_fails_closed asciiLower emptyMarkup [Event.input (utf16 "Up")]
      [Event.clickRecommend] MoviesResponse.notOk (Or.inr rfl) (by decide)).2.2.1 3).2⟩

/-! ## Substring test -/

theorem startsWith_iff (s search : JSString) :
    startsWith s search = true ↔ ∃ post, s = search ++ post := by
  induction s generalizing search with
  | nil =>
      cases search with
      | nil => simp [startsWith]
      | cons d t => simp [startsWith]
  | cons c s ih =>
      cases search with
      | nil => simp [startsWith]
      | cons d t =>
          simp only [startsWith, Bool.and_eq_true, beq_iff_eq, ih, List.cons_append,
            List.cons.injEq]
          constructor
          · rintro ⟨rfl, post, rfl⟩
            exact ⟨post, rfl, rfl⟩
          · rintro ⟨post, rfl, rfl⟩
            exact ⟨rfl, post, rfl⟩

theorem includes_iff (s search : JSString) :
    includes s search = true ↔ Contains s search := by
  induction s with
  | nil =>
      simp only [includes, startsWith_iff, Contains]
      constructor
      · rintro ⟨post, h⟩
        exact ⟨[], post, by simpa using h⟩
      · rintro ⟨pre, post, h⟩
        have h2 : pre = [] ∧ search = [] ∧ post = [] := by simpa [and_assoc] using h.symm
        exact ⟨[], by simp [h2.2.1]⟩
  | cons c s ih =>
      simp only [includes, Bool.or_eq_true, startsWith_iff, ih, Contains]
      constructor
      · rintro (⟨post, h⟩ | ⟨pre, post, h⟩)
        · exact ⟨[], post, by simpa using h⟩
        · exact ⟨c :: pre, post, by simp [h]⟩
      · rintro ⟨pre, post, h⟩
        cases pre with
        | nil => exact Or.inl ⟨post, by simpa using h⟩
        | cons d pre =>
            simp only [List.cons_append, List.cons.injEq] at h
            exact Or.inr ⟨pre, post, h.2⟩

/-! ## The debounce timer -/

theorem step_timer_frame (lower : JSString → JSString) (p : Page) (e : Event)
    (h : e.isTimed = false) :
    (step lower p e).timers = p.timers ∧
    (step lower p e).currentTimeout = p.currentTimeout ∧
    (step lower p e).nextTimerId = p.nextTimerId ∧
    (step lower p e).filterRuns = p.filterRuns ∧
    (step lower p e).now = p.now := by
  cases e with
  | moviesSettled r =>
      cases r <;> by_cases hp : p.moviesFetchPending = true <;>
        simp [step, hp, onMoviesSettled, showError]
  | input text => simp [Event.isTimed] at h
  | elapse ms => simp [Event.isTimed] at h
  | clickItem k =>
      simp only [step]
      split
      · split
        · split <;> simp [onItemClick, onOutsideClick]
        · simp
      · simp
  | clickOutside => simp [step, onOutsideClick]
  | change => by_cases hv : p.movieSearchValue = [] <;> simp [step, onChange, hv]
  | clickRecommend =>
      cases hd : p.recommendBtnDisabled
      · by_cases hv : p.movieSearchValue = []
        · simp [step, hd, onRecommendClick, hv, showError, onOutsideClick]
        · by_cases hin : p.movieSearchValue ∈ p.moviesList <;>
            simp [step, hd, onRecommendClick, hv, hin, showError, onOutsideClick]
      · simp [step, hd]
  | recommendSettled r =>
      by_cases hp0 : p.recommendPending = 0
      · simp [step, hp0]
      · rcases r with _ | _ | recs
        · simp [step, hp0, onRecommendSettled, showError]
        · simp [step, hp0, onRecommendSettled, showError]
        · cases recs with
          | none => simp [step, hp0, onRecommendSettled, showError]
          | some l =>
              by_cases hl : 0 < l.length
              · simp [step, hp0, onRecommendSettled, hl, displayRecommendations_eq]
              · simp [step, hp0, onRecommendSettled, hl, showError]

theorem input_eq (lower : JSString → JSString) (p : Page) (text : JSString)
    (hinv : TimerInv p) :
    step lower p (Event.input text)
    = if lower text = [] then
        { p with
            movieSearchValue := text
            timers := []
            autocompleteItems := []
            autocompleteDisplay := Display.none
            selectedMovieText := utf16 "Select a movie to get started" }
      else
        { p with
            movieSearchValue := text
            timers := [{ id := p.nextTimerId, due := p.now + 300, value := lower text }]
            nextTimerId := p.nextTimerId + 1
            currentTimeout := some p.nextTimerId
            autocompleteItems := [staticItem (utf16 "Loading...")]
            autocompleteDisplay := Display.block } := by
  obtain ⟨h0, h1, h2⟩ := hinv
  rcases ht : p.timers with _ | ⟨t, ts⟩
  · cases hc : p.currentTimeout with
    | none =>
        by_cases hv : lower text = [] <;>
          simp [step, onInput, hc, hv, clearTimeout, setTimeout, ht]
    | some id =>
        by_cases hid : id = 0 <;> by_cases hv : lower text = [] <;>
          simp [step, onInput, hc, hv, hid, clearTimeout, setTimeout, ht]
  · have hts : ts = [] := by
      rw [ht] at h1
      simpa using h1
    subst hts
    obtain ⟨hcur, hne⟩ := h2 t (by simp [ht])
    by_cases hv : lower text = [] <;>
      simp [step, onInput, hcur, hne, hv, clearTimeout, setTimeout, ht]

theorem initialPage_timerInv (m : Markup) : TimerInv (initialPage m) := by
  simp [TimerInv, initialPage]

theorem step_timerInv (lower : JSString → JSString) (p : Page) (e : Event)
    (hinv : TimerInv p) : TimerInv (step lower p e) := by
  have frame_case : e.isTimed = false → TimerInv (step lower p e) := by
    intro hf
    obtain ⟨f1, f2, f3, -, -⟩ := step_timer_frame lower p e hf
    unfold TimerInv
    rw [f1, f2, f3]
    exact hinv
  cases e with
  | input text =>
      rw [input_eq lower p text hinv]
      obtain ⟨h0, -, -⟩ := hinv
      by_cases hv : lower text = []
      · simp [hv, TimerInv, h0]
      · simp [hv, TimerInv]
        omega
  | elapse ms =>
      obtain ⟨h0, h1, h2⟩ := hinv
      simp only [step, runTimers_eq, TimerInv]
      refine ⟨h0, le_trans (List.length_filter_le _ _) h1, ?_⟩
      intro t ht
      exact h2 t (List.mem_filter.mp ht).1
  | moviesSettled r => exact frame_case rfl
  | clickItem k => exact frame_case rfl
  | clickOutside => exact frame_case rfl
  | change => exact frame_case rfl
  | clickRecommend => exact frame_case rfl
  | recommendSettled r => exact frame_case rfl

theorem run_timerInv (lower : JSString → JSString) (es : List Event) (p : Page)
    (hinv : TimerInv p) : TimerInv (run lower p es) := by
  induction es generalizing p with
  | nil => exact hinv
  | cons e es ih => exact ih (step lower p e) (step_timerInv lower p e hinv)

theorem keystroke_then_gap (lower : JSString → JSString) (p : Page) (text : JSString)
    (gap : Nat) (hinv : TimerInv p) (hgap : gap < 300) :
    TimerInv (run lower p [Event.input text, Event.elapse gap]) ∧
    (run lower p [Event.input text, Event.elapse gap]).filterRuns = p.filterRuns := by
  refine ⟨run_timerInv lower _ p hinv, ?_⟩
  have hlate : ¬ (p.now + 300 ≤ p.now + gap) := by omega
  rw [run_cons, run_cons, run_nil, input_eq lower p text hinv]
  by_cases hv : lower text = []
  · simp [hv, step, runTimers_eq]
  · simp [hv, step, runTimers_eq, hlate]

theorem keystroke_then_quiet (lower : JSString → JSString) (p : Page) (text : JSString)
    (rest : Nat) (hinv : TimerInv p) (hrest : 300 ≤ rest) :
    run lower p [Event.input text, Event.elapse rest]
    = if lower text = [] then
        { p with
            movieSearchValue := text
            timers := []
            now := p.now + rest
            autocompleteItems := []
            autocompleteDisplay := Display.none
            selectedMovieText := utf16 "Select a movie to get started" }
      else
        { p with
            movieSearchValue := text
            timers := []
            now := p.now + rest
            nextTimerId := p.nextTimerId + 1
            currentTimeout := some p.nextTimerId
            autocompleteItems := renderedItems lower p.moviesList (lower text)
            autocompleteDisplay := Display.block
            filterRuns := p.filterRuns ++ [lower text] } := by
  have hdue : p.now + 300 ≤ p.now + rest := by omega
  rw [run_cons, run_cons, run_nil, input_eq lower p text hinv]
  by_cases hv : lower text = []
  · simp [hv, step, runTimers_eq]
  · simp [hv, step, runTimers_eq, hdue]

theorem burst_cons (k : JSString × Nat) (keys : List (JSString × Nat)) (final : JSString)
    (rest : Nat) :
    burst (k :: keys) final rest
    = [Event.input k.1, Event.elapse k.2] ++ burst keys final rest := rfl

theorem burst_filterRuns (lower : JSString → JSString) (keys : List (JSString × Nat))
    (final : JSString) (rest : Nat) (p : Page) (hinv : TimerInv p)
    (hgap : ∀ k ∈ keys, k.2 < 300) (hrest : 300 ≤ rest) :
    (run lower p (burst keys final rest)).filterRuns
    = p.filterRuns ++ (if lower final = [] then [] else [lower final]) := by
  induction keys generalizing p with
  | nil =>
      have h := keystroke_then_quiet lower p final rest hinv hrest
      simp only [burst, List.foldr_nil]
      rw [h]
      by_cases hv : lower final = [] <;> simp [hv]
  | cons k keys ih =>
      obtain ⟨h1, h2⟩ :=
        keystroke_then_gap lower p k.1 k.2 hinv (hgap k (List.mem_cons_self k keys))
      rw [burst_cons, run_append,
        ih (run lower p [Event.input k.1, Event.elapse k.2]) h1
          (fun x hx => hgap x (List.mem_cons_of_mem k hx)), h2]

/-- C8 (as stated, refuted): a burst of two keystrokes 100 ms apart, the second
of which empties the field, produces no filter evaluation at all. -/
theorem burst_without_evaluation :
    (∀ k ∈ [(utf16 "a", 100)], k.2 < 300) ∧
    (run asciiLower (initialPage emptyMarkup) (burst [(utf16 "a", 100)] [] 300)).filterRuns = [] ∧
    (run asciiLower (initialPage emptyMarkup)
      (burst [(utf16 "a", 100)] [] 300)).filterRuns.length ≠ 1 := by
  decide

/-- C8 (amended): in every state reachable from the initial page by any
sequence of page events, at most one debounce timer is pending; and for every
burst of keystrokes started in such a state, whose keystrokes arrive less than
300 ms after one another and which is followed by at least 300 ms of quiet,
exactly one filter evaluation takes place when the final keystroke leaves a
non-empty value in the field, with the lowercased value of that keystroke, and
none takes place when it leaves the field empty. -/
theorem debounce_burst (lower : JSString → JSString) (m : Markup) (es : List Event)
    (keys : List (JSString × Nat)) (final : JSString) (rest : Nat) :
    (run lower (initialPage m) es).timers.length ≤ 1 ∧
    ((∀ k ∈ keys, k.2 < 300) → 300 ≤ rest →
      (lower final ≠ [] →
        (run lower (run lower (initialPage m) es) (burst keys final rest)).filterRuns
          = (run lower (initialPage m) es).filterRuns ++ [lower final]) ∧
      (lower final = [] →
        (run lower (run lower (initialPage m) es) (burst keys final rest)).filterRuns
          = (run lower (initialPage m) es).filterRuns)) := by
  have hinv := run_timerInv lower es (initialPage m) (initialPage_timerInv m)
  refine ⟨hinv.2.1, fun hgap hrest => ?_⟩
  have hruns := burst_filterRuns lower keys final rest _ hinv hgap hrest
  refine ⟨?_, ?_⟩
  · intro hv
    rw [hruns]
    simp [hv]
  · intro hv
    rw [hruns]
    simp [hv]

theorem debounce_burst_witness :
    (∀ k ∈ [(utf16 "i", 100), (utf16 "in", 299)], k.2 < 300) ∧
    (run asciiLower (initialPage emptyMarkup) [Event.elapse 5]).timers.length ≤ 1 ∧
    (run asciiLower (run asciiLower (initialPage emptyMarkup) [Event.elapse 5])
      (burst [(utf16 "i", 100), (utf16 "in", 299)] (utf16 "Int") 300)).filterRuns
      = (run asciiLower (initialPage emptyMarkup) [Event.elapse 5]).filterRuns
          ++ [asciiLower (utf16 "Int")] :=
  ⟨by decide,
    (debounce_burst asciiLower emptyMarkup [Event.elapse 5]
      [(utf16 "i", 100), (utf16 "in", 299)] (utf16 "Int") 300).1,
    ((debounce_burst asciiLower emptyMarkup [Event.elapse 5]
      [(utf16 "i", 100), (utf16 "in", 299)] (utf16 "Int") 300).2 (by decide) (by decide)).1
      (by decide)⟩

/-! ## Autocomplete -/

theorem asciiLower_eq_nil (s : JSString) : asciiLower s = [] ↔ s = [] := by
  simp [asciiLower]

theorem filteredMovies_spec (lower : JSString → JSString) (moviesList : List JSString)
    (value : JSString) :
    filteredMovies lower moviesList value
    = (moviesList.filter
        (fun t => @decide (Contains (lower t) value) (Classical.propDecidable _))).take 10 := by
  unfold filteredMovies
  congr 1
  apply List.filter_congr
  intro t _
  by_cases h : Contains (lower t) value
  · simp [h, (includes_iff (lower t) value).mpr h]
  · have h2 : includes (lower t) value = false := by
      cases hi : includes (lower t) value with
      | false => rfl
      | true => exact absurd ((includes_iff (lower t) value).mp hi) h
    simp [h, h2]

theorem mem_filteredMovies (lower : JSString → JSString) (moviesList : List JSString)
    (value t : JSString) (h : t ∈ filteredMovies lower moviesList value) :
    t ∈ moviesList ∧ Contains (lower t) value := by
  have h1 := List.mem_filter.mp (List.mem_of_mem_take h)
  exact ⟨h1.1, (includes_iff (lower t) value).mp h1.2⟩

/-- C1: for every catalog and every non-empty input s, typed in any state in
which the debounce invariant holds, the suggestion list rendered 300 ms later
is the list of rows of the filtered titles (or the single "No movies found" row
when there is none); the filtered titles are catalog titles whose lowercase form
contains lowercase s, there are at most 10 of them, they are in catalog order,
and they are exactly the first 10 (or fewer) matching titles of the catalog. -/
theorem suggestions_filtered (lower : JSString → JSString) (p : Page) (s : JSString)
    (hlow : ∀ x, lower x = [] → x = []) (hinv : TimerInv p) (hs : s ≠ []) :
    (run lower p [Event.input s, Event.elapse 300]).autocompleteItems
      = (if filteredMovies lower p.moviesList (lower s) = [] then
          [staticItem (utf16 "No movies found")]
        else (filteredMovies lower p.moviesList (lower s)).map suggestionItem) ∧
    (∀ t ∈ filteredMovies lower p.moviesList (lower s),
      t ∈ p.moviesList ∧ Contains (lower t) (lower s)) ∧
    (filteredMovies lower p.moviesList (lower s)).length ≤ 10 ∧
    (filteredMovies lower p.moviesList (lower s)).Sublist p.moviesList ∧
    filteredMovies lower p.moviesList (lower s)
      = (p.moviesList.filter
          (fun t => @decide (Contains (lower t) (lower s)) (Classical.propDecidable _))).take 10 := by
  have hv : lower s ≠ [] := fun h => hs (hlow s h)
  refine ⟨?_, fun t ht => mem_filteredMovies lower _ _ t ht, ?_, ?_,
    filteredMovies_spec lower _ _⟩
  · rw [keystroke_then_quiet lower p s 300 hinv (le_refl 300)]
    simp [hv, renderedItems]
  · exact List.length_take_le 10 _
  · exact (List.take_sublist 10 _).trans (List.filter_sublist _)

theorem suggestions_filtered_witness :
    utf16 "inter" ≠ [] ∧
    filteredMovies asciiLower catalogPage.moviesList (asciiLower (utf16 "inter"))
      = [utf16 "Interstellar"] ∧
    (run asciiLower catalogPage [Event.input (utf16 "inter"), Event.elapse 300]).autocompleteItems
      = (if filteredMovies asciiLower catalogPage.moviesList (asciiLower (utf16 "inter")) = [] then
          [staticItem (utf16 "No movies found")]
        else
          (filteredMovies asciiLower catalogPage.moviesList
            (asciiLower (utf16 "inter"))).map suggestionItem) :=
  ⟨by decide, by decide,
    (suggestions_filtered asciiLower catalogPage (utf16 "inter")
      (fun x hx => (asciiLower_eq_nil x).mp hx) (by decide) (by decide)).1⟩

/-- C10: for every catalog, every non-empty input s and every title t at index
k of the titles filtered for s: 300 ms after s is typed the row at index k is
the row of t; clicking it sets the search field to t; t is non-empty and is in
the catalog; and a click on the (enabled) recommend button next issues exactly
one request, the POST to /recommend whose body's movie field is t. -/
theorem suggestion_commits (lower : JSString → JSString) (p : Page) (s t : JSString)
    (k : Nat) (hlow : ∀ x, lower x = [] ↔ x = []) (hinv : TimerInv p)
    (henabled : p.recommendBtnDisabled = false) (hs : s ≠ [])
    (hk : (filteredMovies lower p.moviesList (lower s)).get? k = some t) :
    (run lower p [Event.input s, Event.elapse 300]).autocompleteItems.get? k
      = some (suggestionItem t) ∧
    (run lower p [Event.input s, Event.elapse 300, Event.clickItem k]).movieSearchValue = t ∧
    t ≠ [] ∧
    t ∈ (run lower p [Event.input s, Event.elapse 300, Event.clickItem k]).moviesList ∧
    (run lower p
      [Event.input s, Event.elapse 300, Event.clickItem k, Event.clickRecommend]).sent
      = p.sent ++ [Request.postRecommend t] := by
  have hv : lower s ≠ [] := fun h => hs ((hlow s).mp h)
  have hmem : t ∈ filteredMovies lower p.moviesList (lower s) := List.get?_mem hk
  obtain ⟨hcat, pre, post, hcontains⟩ := mem_filteredMovies lower _ _ t hmem
  have hne : filteredMovies lower p.moviesList (lower s) ≠ [] := List.ne_nil_of_mem hmem
  have ht : t ≠ [] := by
    intro h
    have h2 : lower t = [] := (hlow t).mpr h
    rw [h2] at hcontains
    have h3 : pre = [] ∧ lower s = [] ∧ post = [] := by simpa [and_assoc] using hcontains.symm
    exact hv h3.2.1
  have hq := keystroke_then_quiet lower p s 300 hinv (le_refl 300)
  simp only [hv, if_false] at hq
  have hitems : (run lower p [Event.input s, Event.elapse 300]).autocompleteItems.get? k
      = some (suggestionItem t) := by
    rw [hq]
    simp [renderedItems, hne, List.get?_eq_getElem?] at hk ⊢
    exact ⟨t, hk, rfl⟩
  have hclick : run lower p [Event.input s, Event.elapse 300, Event.clickItem k]
      = onItemClick (run lower p [Event.input s, Event.elapse 300]) t := by
    have hsplit : [Event.input s, Event.elapse 300, Event.clickItem k]
        = [Event.input s, Event.elapse 300] ++ [Event.clickItem k] := rfl
    have hdisp : (run lower p [Event.input s, Event.elapse 300]).autocompleteDisplay
        = Display.block := by
      rw [hq]
    have hitems2 : (run lower p [Event.input s, Event.elapse 300]).autocompleteItems[k]?
        = some (suggestionItem t) := by
      simpa [List.get?_eq_getElem?] using hitems
    rw [hsplit, run_append, run_cons, run_nil]
    simp [step, hdisp, hitems2, suggestionItem, onItemClick, onOutsideClick]
  have hfinal : run lower p
      [Event.input s, Event.elapse 300, Event.clickItem k, Event.clickRecommend]
      = step lower (onItemClick (run lower p [Event.input s, Event.elapse 300]) t)
          Event.clickRecommend := by
    have hsplit : [Event.input s, Event.elapse 300, Event.clickItem k, Event.clickRecommend]
        = [Event.input s, Event.elapse 300, Event.clickItem k] ++ [Event.clickRecommend] := rfl
    rw [hsplit, run_append, run_cons, run_nil, hclick]
  refine ⟨hitems, ?_, ht, ?_, ?_⟩
  · rw [hclick]
    rfl
  · rw [hclick, hq]
    exact hcat
  · rw [hfinal, click_accepted lower _ (by rw [hq]; exact henabled) ht (by rw [hq]; exact hcat)]
    rw [hq]
    simp [onItemClick]

theorem suggestion_commits_witness :
    (filteredMovies asciiLower catalogPage.moviesList (asciiLower (utf16 "In"))).get? 1
      = some (utf16 "Interstellar") ∧
    (run asciiLower catalogPage
      [Event.input (utf16 "In"), Event.elapse 300, Event.clickItem 1]).movieSearchValue
      = utf16 "Interstellar" ∧
    (run asciiLower catalogPage
      [Event.input (utf16 "In"), Event.elapse 300, Event.clickItem 1, Event.clickRecommend]).sent
      = catalogPage.sent ++ [Request.postRecommend (utf16 "Interstellar")] :=
  ⟨by decide,
    (suggestion_commits asciiLower catalogPage (utf16 "In") (utf16 "Interstellar") 1
      asciiLower_eq_nil (by decide) (by decide) (by decide) (by decide)).2.1,
    (suggestion_commits asciiLower catalogPage (utf16 "In") (utf16 "Interstellar") 1
      asciiLower_eq_nil (by decide) (by decide) (by decide) (by decide)).2.2.2.2⟩

end MovieRec
